import Mathlib

/-!
Shallow embedding of the points-management subsystem of the ecoleta server
(`src/server/src/controllers/PointsController.ts`).

The relational store is modelled as lists of rows; the knex transaction is
modelled by building the post-commit state and installing it only when the
commit line is reached, so a thrown error before commit leaves the committed
state unchanged. Possible infrastructure failure of the individual insert /
update statements inside a transaction is modelled by explicit boolean
oracle arguments (`true` = the statement succeeds). The bcrypt hash and the
token signer are opaque collaborators, passed in as function arguments.
The uploads directory is modelled as the list of stored filenames.
-/

namespace Ecoleta

/-- One row of the `points` table. `select('points.*')` returns every one of
these columns, the stored `password` hash included. Latitude and longitude
arrive as multipart form text and play no computational role here, so they
are kept as strings. -/
structure PointRow where
  id : Nat
  name : String
  email : String
  password : String
  whatsapp : String
  latitude : String
  longitude : String
  city : String
  uf : String
  image : String
deriving DecidableEq, Repr

/-- One row of the `point_items` join table. -/
structure PointItemRow where
  point_id : Nat
  item_id : Int
deriving DecidableEq, Repr

/-- One row of the read-only `items` reference table. -/
structure ItemRow where
  id : Int
  title : String
deriving DecidableEq, Repr

/-- The committed database state. `nextId` models the autoincrement counter
that yields the id returned by `trx('points').insert(point)`. -/
structure DB where
  points : List PointRow
  point_items : List PointItemRow
  items : List ItemRow
  nextId : Nat
deriving DecidableEq, Repr

/-- Database plus the uploads/images directory (the filenames on disk),
which `fs.unlinkSync` mutates outside of any database transaction. -/
structure SystemState where
  db : DB
  files : List String
deriving DecidableEq, Repr

/-- JS `String.prototype.split(',')` on the character list: the comma is a
separator, the empty string splits to one empty field. -/
def splitCommaChars : List Char → List (List Char)
  | [] => [[]]
  | c :: cs =>
    if c = ',' then [] :: splitCommaChars cs
    else
      match splitCommaChars cs with
      | [] => [[c]]
      | w :: ws => (c :: w) :: ws

/-- JS `String.prototype.trim()` restricted to the space character, the only
whitespace the delimited item lists carry. -/
def trimChars (cs : List Char) : List Char :=
  ((cs.dropWhile (fun c => c = ' ')).reverse.dropWhile (fun c => c = ' ')).reverse

/-- The numeric value of a decimal digit character. -/
def digitVal (c : Char) : Option Nat :=
  if '0' ≤ c ∧ c ≤ '9' then some (c.toNat - '0'.toNat) else none

/-- Decimal reading of a nonempty all-digit character list. -/
def natOfChars : List Char → Option Nat
  | [] => none
  | cs =>
    cs.foldl
      (fun acc c =>
        match acc, digitVal c with
        | some n, some d => some (n * 10 + d)
        | _, _ => none)
      (some 0)

/-- Reading of an optionally negated decimal numeral. -/
def intOfChars : List Char → Option Int
  | '-' :: cs => (natOfChars cs).map (fun n => -(n : Int))
  | cs => (natOfChars cs).map (fun n => (n : Int))

/-- JS `Number(s.trim())` on the item-id fields: integer numerals (with the
empty string reading as 0, as in JS). A non-numeral field would be JS `NaN`,
which no claim exercises; this model is only applied to numeral fields. -/
def jsNumberInt (s : String) : Int :=
  (intOfChars (trimChars s.toList)).getD 0

/-- Parsing of the comma-delimited item-id field:
`items.split(',').map(item => Number(item.trim()))`. -/
def parseItems (items : String) : List Int :=
  (splitCommaChars items.toList).map (fun cs => jsNumberInt (String.mk cs))

/-- The hard-coded base used to decorate a stored image filename:
image_url of the serialized point. -/
def imageUrl (image : String) : String :=
  "http://10.0.0.103:3333/uploads/images/" ++ image

/-! ## Point Query Service - list (`PointsController.index`) -/

/-- Query parameters of `GET /points`. `returnItems` only switches the
response to a nested variant that additionally carries item titles; it does
not change which points are selected, and no claim depends on the nested
shape, so only the flag is recorded. -/
structure IndexQuery where
  city : String
  uf : String
  items : String
  ignoreItems : Bool
  returnItems : Bool
deriving DecidableEq, Repr

/-- The inner join `knex('points').join('point_items', 'points.id', '=',
'point_items.point_id')`: one row per matching (point, association) pair. -/
def joinPointItems (db : DB) : List (PointRow × PointItemRow) :=
  db.points.flatMap (fun p =>
    (db.point_items.filter (fun pi => pi.point_id == p.id)).map (fun pi => (p, pi)))

/-- The rows produced by `index`: join, optional `whereIn` on the parsed
item ids, `where city`, `where uf`, `distinct().select('points.*')`. -/
def indexPoints (db : DB) (q : IndexQuery) : List PointRow :=
  (((if q.ignoreItems then joinPointItems db
     else (joinPointItems db).filter
       (fun pr => (parseItems q.items).contains pr.2.item_id)).filter
    (fun pr => pr.1.city == q.city && pr.1.uf == q.uf)).map Prod.fst).dedup

/-- A point as serialized by `index`: the whole row spread into the response
object plus the decorated `image_url`. -/
structure SerializedPoint where
  point : PointRow
  image_url : String
deriving DecidableEq, Repr

/-- The response body of `index` in its base shape (without the
`returnItems` nesting). -/
def indexResponse (db : DB) (q : IndexQuery) : List SerializedPoint :=
  (indexPoints db q).map (fun p => ⟨p, imageUrl p.image⟩)

/-! ## Point Query Service - show (`PointsController.show`) -/

/-- The item titles fetched for one point: `knex('items').join('point_items',
'items.id', '=', 'point_items.item_id').where('point_items.point_id',
pid).select('items.title')`. No distinct: duplicate association rows yield
duplicate titles. -/
def itemTitlesFor (db : DB) (pid : Nat) : List String :=
  db.items.flatMap (fun it =>
    (db.point_items.filter (fun pi => pi.item_id == it.id && pi.point_id == pid)).map
      (fun _ => it.title))

/-- Success body of `show`. -/
structure ShowOk where
  point : SerializedPoint
  items : List String
deriving DecidableEq, Repr

/-- Response of `show`: 400 with a message, or 200 with the body. -/
inductive ShowResult where
  | notFound (message : String)
  | ok (body : ShowOk)
deriving DecidableEq, Repr

/-- The `show` operation: first row with the given id, serialized with
`image_url` added (and nothing removed), plus the item titles. -/
def showPoint (db : DB) (id : Nat) : ShowResult :=
  match db.points.find? (fun p => p.id == id) with
  | none => .notFound "point not found."
  | some p => .ok ⟨⟨p, imageUrl p.image⟩, itemTitlesFor db id⟩

/-! ## Point Registration Service - create (`PointsController.create`) -/

/-- The structured information object of the duplicate-e-mail 400 response.
The `in` key of the JSON body is rendered as `inField`. -/
structure ErrorInfo where
  inField : String
  code : String
  message : String
deriving DecidableEq, Repr

/-- The duplicate-e-mail error body, shared verbatim by create and update. -/
def dupEmailInfo : ErrorInfo :=
  ⟨"create_point", "EMAIL_ALREADY_REGISTERED", "Only one point per e-mail permited."⟩

/-- Body of `POST /points`. `file` is the multer upload: `none` models a
request without a file field (`request.file === undefined`). -/
structure CreateRequest where
  name : String
  email : String
  password : String
  whatsapp : String
  latitude : String
  longitude : String
  city : String
  uf : String
  items : String
  file : Option String
deriving DecidableEq, Repr

/-- The point object returned by a successful create: the inserted fields
spread under the new id, with `password: undefined` overriding the hash. -/
structure CreatedPoint where
  id : Nat
  name : String
  email : String
  password : Option String
  whatsapp : String
  latitude : String
  longitude : String
  city : String
  uf : String
  image : String
deriving DecidableEq, Repr

/-- Outcome of `create`: 200 with point and token, the structured 400 for a
duplicate e-mail, or an uncaught exception (no structured response at all;
the open transaction is never committed). -/
inductive CreateResult where
  | ok (point : CreatedPoint) (token : String)
  | emailTaken (status : Nat) (info : ErrorInfo)
  | crash (message : String)
deriving DecidableEq, Repr

/-- Whether a `CreateResult` is the 200 outcome. -/
def CreateResult.isOk : CreateResult → Bool
  | .ok _ _ => true
  | _ => false

/-- The `create` operation. `hash` is bcrypt.hash with its cost fixed,
`tok` is generateToken, both opaque collaborators. `pointInsertOk` and
`pointItemsInsertOk` are the failure oracles for the two statements run on
the transaction: when either is `false` that statement throws, the commit
line is never reached, and the committed state stays as it was. -/
def createPoint (hash : String → String) (tok : Nat → String)
    (pointInsertOk pointItemsInsertOk : Bool)
    (db : DB) (req : CreateRequest) : DB × CreateResult :=
  if (db.points.filter (fun p => p.email == req.email)).length > 0 then
    (db, .emailTaken 400 dupEmailInfo)
  else
    match req.file with
    | none =>
      -- `request.file.filename` with no uploaded file: uncaught TypeError.
      (db, .crash "TypeError: Cannot read property filename of undefined")
    | some filename =>
      if pointInsertOk then
        if pointItemsInsertOk then
          ({ points := db.points ++
               [⟨db.nextId, req.name, req.email, hash req.password, req.whatsapp,
                 req.latitude, req.longitude, req.city, req.uf, filename⟩],
             point_items := db.point_items ++
               (parseItems req.items).map (fun itemId => PointItemRow.mk db.nextId itemId),
             items := db.items,
             nextId := db.nextId + 1 },
           .ok ⟨db.nextId, req.name, req.email, none, req.whatsapp, req.latitude,
             req.longitude, req.city, req.uf, filename⟩ (tok db.nextId))
        else (db, .crash "insert into point_items threw")
      else (db, .crash "insert into points threw")

/-! ## Point Registration Service - update (`PointsController.update`) -/

/-- Body of `PUT /points`. Every patch field is optional: `none` models a
field absent from the multipart form (`undefined`), which knex skips when
building the UPDATE statement. `file` is the optional multer upload. -/
structure UpdateRequest where
  originalemail : String
  name : Option String
  email : Option String
  password : Option String
  whatsapp : Option String
  latitude : Option String
  longitude : Option String
  city : Option String
  uf : Option String
  items : Option String
  file : Option String
deriving DecidableEq, Repr

/-- JS truthiness test `x && x !== ''` applied to an optional text field. -/
def suppliedNonEmpty : Option String → Bool
  | some s => s != ""
  | none => false

/-- The guard of the update-time uniqueness check:
`email && email != '' && email !== originalemail` and a nonempty result of
`knex('points').where('email', email)`. -/
def emailChangeCollides (db : DB) (req : UpdateRequest) : Bool :=
  match req.email with
  | none => false
  | some e =>
    e != "" && e != req.originalemail &&
      (db.points.filter (fun p => p.email == e)).length > 0

/-- The UPDATE statement applied to one row: knex skips the `undefined`
entries of the update object, so each absent field keeps the row's value. -/
def patchedRow (req : UpdateRequest) (passwordHash : Option String)
    (image : Option String) (r : PointRow) : PointRow :=
  { r with
    name := req.name.getD r.name
    email := req.email.getD r.email
    password := passwordHash.getD r.password
    whatsapp := req.whatsapp.getD r.whatsapp
    latitude := req.latitude.getD r.latitude
    longitude := req.longitude.getD r.longitude
    city := req.city.getD r.city
    uf := req.uf.getD r.uf
    image := image.getD r.image }

/-- `trx('points').where('id', pointId).update(point)`. -/
def dbAfterPointUpdate (db : DB) (pointId : Nat) (req : UpdateRequest)
    (passwordHash image : Option String) : DB :=
  { db with points := db.points.map (fun r =>
      if r.id == pointId then patchedRow req passwordHash image r else r) }

/-- The association replacement: when `items && items !== ''`, delete every
`point_items` row of the point and insert one row per parsed id. -/
def dbAfterItems (db : DB) (pointId : Nat) (req : UpdateRequest) : DB :=
  if suppliedNonEmpty req.items then
    { db with point_items :=
        db.point_items.filter (fun pi => !(pi.point_id == pointId)) ++
          (parseItems (req.items.getD "")).map (fun i => PointItemRow.mk pointId i) }
  else db

/-- One output item of update: `select('items.title', 'items.id')`. -/
structure ItemOut where
  title : String
  id : Int
deriving DecidableEq, Repr

/-- The output items of update for one point: the items join restricted to
the point, titles and ids. -/
def itemsOutFor (db : DB) (pid : Nat) : List ItemOut :=
  db.items.flatMap (fun it =>
    (db.point_items.filter (fun pi => pi.item_id == it.id && pi.point_id == pid)).map
      (fun _ => ItemOut.mk it.title it.id))

/-- The point object of a successful update response: the re-read row with
`password: undefined` and the decorated `image_url` appended. -/
structure SanitizedPoint where
  id : Nat
  name : String
  email : String
  password : Option String
  whatsapp : String
  latitude : String
  longitude : String
  city : String
  uf : String
  image : String
  image_url : String
deriving DecidableEq, Repr

/-- Outcome of `update`: 200, the structured duplicate-e-mail 400, the
point-not-found 400, or an uncaught exception. -/
inductive UpdateResult where
  | ok (point : SanitizedPoint) (items : List ItemOut)
  | emailTaken (status : Nat) (info : ErrorInfo)
  | notFound (message : String)
  | crash (message : String)
deriving DecidableEq, Repr

/-- Whether an `UpdateResult` is the 200 outcome. -/
def UpdateResult.isOk : UpdateResult → Bool
  | .ok _ _ => true
  | _ => false

/-- The transactional tail of update, entered after the unlink step: the
UPDATE on `points`, the optional association replacement, the re-reads, the
commit. `st` carries the committed database and the already-mutated file
directory; a failure oracle set to `false` makes the corresponding statement
throw, so the commit is never reached and `st` is returned unchanged. -/
def updateTrx (pointUpdateOk itemsReplaceOk : Bool) (st : SystemState)
    (req : UpdateRequest) (pointId : Nat) (passwordHash image : Option String) :
    SystemState × UpdateResult :=
  if pointUpdateOk then
    if suppliedNonEmpty req.items && !itemsReplaceOk then
      (st, .crash "point_items replacement threw")
    else
      match (dbAfterItems (dbAfterPointUpdate st.db pointId req passwordHash image)
          pointId req).points.find? (fun p => p.id == pointId) with
      | none => (st, .crash "TypeError: outputPoint is undefined")
      | some outputPoint =>
        (⟨dbAfterItems (dbAfterPointUpdate st.db pointId req passwordHash image)
            pointId req, st.files⟩,
          .ok
            ⟨outputPoint.id, outputPoint.name, outputPoint.email, none,
              outputPoint.whatsapp, outputPoint.latitude, outputPoint.longitude,
              outputPoint.city, outputPoint.uf, outputPoint.image,
              imageUrl outputPoint.image⟩
            (itemsOutFor
              (dbAfterItems (dbAfterPointUpdate st.db pointId req passwordHash image)
                pointId req)
              pointId))
  else (st, .crash "update on points threw")

/-- The hash recomputed on update: `if (password && password !== '')` the
new bcrypt hash, otherwise `undefined` (knex then skips the column). -/
def passwordHashOf (hash : String → String) (req : UpdateRequest) : Option String :=
  if suppliedNonEmpty req.password then some (hash (req.password.getD "")) else none

/-- The `update` operation: uniqueness check for a changed e-mail, optional
hash recomputation, row lookup by `originalemail`, `fs.unlinkSync` of the
old image when a new file was uploaded (a filesystem effect, outside the
transaction and immediate), then the transactional tail. -/
def updatePoint (hash : String → String) (pointUpdateOk itemsReplaceOk : Bool)
    (st : SystemState) (req : UpdateRequest) : SystemState × UpdateResult :=
  if emailChangeCollides st.db req then
    (st, .emailTaken 400 dupEmailInfo)
  else
    match st.db.points.find? (fun p => p.email == req.originalemail) with
    | none => (st, .notFound "raw point not found.")
    | some rawPoint =>
      match req.file with
      | some newImage =>
        if st.files.contains rawPoint.image then
          updateTrx pointUpdateOk itemsReplaceOk
            ⟨st.db, st.files.erase rawPoint.image⟩ req rawPoint.id
            (passwordHashOf hash req) (some newImage)
        else
          -- unlinkSync on a missing file throws before any database write.
          (st, .crash "ENOENT: unlinkSync threw")
      | none =>
        updateTrx pointUpdateOk itemsReplaceOk st req rawPoint.id
          (passwordHashOf hash req) none

/-! ## Derived views of the stored state -/

/-- The stored credential hash of the point with a given id (the first row
the store yields for that id). -/
def pointPassword (db : DB) (pid : Nat) : Option String :=
  (db.points.find? (fun q => q.id == pid)).map PointRow.password

/-- The association set of one point: the item ids of its `point_items`
rows. -/
def assocItems (db : DB) (pid : Nat) : List Int :=
  (db.point_items.filter (fun pi => pi.point_id == pid)).map PointItemRow.item_id

/-! ## Concrete collaborators and states used by the instantiations -/

/-- A concrete stand-in for the opaque bcrypt collaborator. -/
def demoHash (s : String) : String := String.append "bcrypt." s

/-- A concrete stand-in for the opaque token signer. -/
def demoTok (_ : Nat) : String := "token"

/-- The empty store. -/
def emptyDb : DB := ⟨[], [], [], 1⟩

/-- A stored point whose hash is `hashA`, used to exhibit the hash leak. -/
def hashLeakRow : PointRow :=
  ⟨1, "Eco Ponto", "a@x.com", "hashA", "62999990000", "-16.3", "-48.9",
    "Anapolis", "GO", "img.png"⟩

/-- A store holding only `hashLeakRow`. -/
def hashLeakDbA : DB := ⟨[hashLeakRow], [], [], 2⟩

/-- The same store with the one point's hash replaced by `hashB`. -/
def hashLeakDbB : DB := ⟨[{ hashLeakRow with password := "hashB" }], [], [], 2⟩

/-- A create request whose delimited item list repeats the identifier 1. -/
def c5req : CreateRequest :=
  ⟨"n", "c5@x.com", "pw", "w", "0", "0", "c", "u", "1,1", some "c5.png"⟩

/-- A create request carrying no uploaded file. -/
def noFileReq : CreateRequest :=
  ⟨"n", "b@x.com", "pw", "w", "0", "0", "c", "u", "1", none⟩

/-- A stored point with a matching city and uf and no association rows. -/
def itemlessRow : PointRow :=
  ⟨1, "n", "c9@x.com", "H9", "w", "0", "0", "Anapolis", "GO", "i.png"⟩

/-- A store holding only `itemlessRow`, with an empty association store. -/
def itemlessDb : DB := ⟨[itemlessRow], [], [], 2⟩

/-- A stored point whose image on disk is `old.png`. -/
def danglingRow : PointRow :=
  ⟨1, "n", "d7@x.com", "H7", "w", "0", "0", "c", "u", "old.png"⟩

/-- A state holding `danglingRow` with its image stored on disk, plus the
freshly uploaded `new.png`. -/
def danglingState : SystemState :=
  ⟨⟨[danglingRow], [⟨1, 1⟩], [], 2⟩, ["old.png", "new.png"]⟩

/-- An update that only supplies a new uploaded image. -/
def danglingReq : UpdateRequest :=
  ⟨"d7@x.com", none, none, none, none, none, none, none, none, none, some "new.png"⟩

/-- A stored point used by the concrete update instantiations. -/
def u1row : PointRow :=
  ⟨1, "n", "u@x.com", "H2", "w", "0", "0", "c", "u", "img.png"⟩

/-- A state holding `u1row` with associations 1, 2 and 3. -/
def u1st : SystemState :=
  ⟨⟨[u1row], [⟨1, 1⟩, ⟨1, 2⟩, ⟨1, 3⟩], [], 2⟩, ["img.png"]⟩

/-- An update of `u1row` supplying the replacement item list `4`. -/
def u1reqItems : UpdateRequest :=
  ⟨"u@x.com", none, none, none, none, none, none, none, none, some "4", none⟩

/-- An update of `u1row` supplying only a new credential. -/
def u1reqPassword : UpdateRequest :=
  ⟨"u@x.com", none, none, some "newpw", none, none, none, none, none, none, none⟩

/-! ## Claims -/

/-- Claim C1. The claim says the stored credential hash never appears in any
response body and that two stored states differing only in a point's hash
are indistinguishable through every read operation. The code refutes it:
`show` serializes the full `points` row (`{...point}`) without stripping
`password`, so the hash is in the 200 body of `show`, and the two states
differing only in the hash are distinguished. This theorem evaluates the
code at the failing input: the `show` response carries the whole row, hash
included, and the two responses differ. -/
theorem C1_show_exposes_credential_hash :
    showPoint hashLeakDbA 1 = .ok ⟨⟨hashLeakRow, imageUrl "img.png"⟩, []⟩ ∧
      showPoint hashLeakDbA 1 ≠ showPoint hashLeakDbB 1 := by
  exact ⟨rfl, by decide⟩

/-- Claim C3. A create whose e-mail already belongs to a stored point
returns the structured 400 with code `EMAIL_ALREADY_REGISTERED` and leaves
the stored state unchanged: the duplicate check runs before the transaction
is even opened, and the early return produces no insert. -/
theorem C3_duplicate_email_rejected (hash : String → String) (tok : Nat → String)
    (ok1 ok2 : Bool) (db : DB) (req : CreateRequest)
    (hdup : ∃ p ∈ db.points, p.email = req.email) :
    createPoint hash tok ok1 ok2 db req = (db, .emailTaken 400 dupEmailInfo) := by
  obtain ⟨p, hp, he⟩ := hdup
  have hmem : p ∈ db.points.filter (fun q => q.email == req.email) := by
    rw [List.mem_filter]
    exact ⟨hp, by simp [he]⟩
  have hlen : (db.points.filter (fun q => q.email == req.email)).length > 0 :=
    List.length_pos.mpr (List.ne_nil_of_mem hmem)
  unfold createPoint
  simp [hlen]

/-- Witness for C3 at a concrete store and request. -/
theorem C3_witness :
    createPoint demoHash demoTok true true hashLeakDbA
        ⟨"n2", "a@x.com", "pw", "w", "0", "0", "c", "u", "1", some "x.png"⟩ =
      (hashLeakDbA, .emailTaken 400 dupEmailInfo) :=
  C3_duplicate_email_rejected demoHash demoTok true true hashLeakDbA
    ⟨"n2", "a@x.com", "pw", "w", "0", "0", "c", "u", "1", some "x.png"⟩
    ⟨hashLeakRow, by decide, by decide⟩

/-- Case analysis of one create call: either the committed state is
unchanged and the outcome is not the 200 (duplicate e-mail, missing file,
or a statement of the transaction threw), or the call succeeded and the
committed state extends the prior one by exactly the new point row and one
association row per parsed item id. -/
theorem createPoint_spec (hash : String → String) (tok : Nat → String)
    (ok1 ok2 : Bool) (db : DB) (req : CreateRequest) (db' : DB) (res : CreateResult)
    (hpair : createPoint hash tok ok1 ok2 db req = (db', res)) :
    (db' = db ∧ ∀ pt token, res ≠ .ok pt token) ∨
    (∃ filename, req.file = some filename ∧ ok1 = true ∧ ok2 = true ∧
      db' = { points := db.points ++
                [⟨db.nextId, req.name, req.email, hash req.password, req.whatsapp,
                  req.latitude, req.longitude, req.city, req.uf, filename⟩],
              point_items := db.point_items ++
                (parseItems req.items).map (fun itemId => PointItemRow.mk db.nextId itemId),
              items := db.items,
              nextId := db.nextId + 1 } ∧
      res = .ok ⟨db.nextId, req.name, req.email, none, req.whatsapp, req.latitude,
        req.longitude, req.city, req.uf, filename⟩ (tok db.nextId)) := by
  unfold createPoint at hpair
  split at hpair
  · injection hpair with h1 h2
    exact Or.inl ⟨h1.symm, by intro pt token h; rw [← h2] at h; cases h⟩
  · split at hpair
    · injection hpair with h1 h2
      exact Or.inl ⟨h1.symm, by intro pt token h; rw [← h2] at h; cases h⟩
    · next filename heqfile =>
      split at hpair
      · split at hpair
        · injection hpair with h1 h2
          exact Or.inr ⟨filename, heqfile, by assumption, by assumption, h1.symm, h2.symm⟩
        · injection hpair with h1 h2
          exact Or.inl ⟨h1.symm, by intro pt token h; rw [← h2] at h; cases h⟩
      · injection hpair with h1 h2
        exact Or.inl ⟨h1.symm, by intro pt token h; rw [← h2] at h; cases h⟩

/-- Claim C4. The point insert and the association insert of create run on
one transaction that is committed only after both: when either statement
throws, the commit line is unreachable, so the committed state is exactly
the prior state (no point row and no association rows from the call), and
no success response is produced. -/
theorem C4_create_rolls_back (hash : String → String) (tok : Nat → String)
    (ok1 ok2 : Bool) (db : DB) (req : CreateRequest)
    (hfail : ok1 = false ∨ ok2 = false) :
    (createPoint hash tok ok1 ok2 db req).1 = db ∧
      ∀ pt token, (createPoint hash tok ok1 ok2 db req).2 ≠ .ok pt token := by
  rcases createPoint_spec hash tok ok1 ok2 db req
      (createPoint hash tok ok1 ok2 db req).1
      (createPoint hash tok ok1 ok2 db req).2 Prod.mk.eta.symm with
    h | ⟨filename, _, hok1, hok2, _, _⟩
  · exact h
  · rcases hfail with rfl | rfl
    · exact absurd hok1 Bool.false_ne_true
    · exact absurd hok2 Bool.false_ne_true

/-- Witness for C4: concrete create whose association insert throws. -/
theorem C4_witness :
    (createPoint demoHash demoTok true false emptyDb
        ⟨"n", "b@x.com", "pw", "w", "0", "0", "c", "u", "1,2", some "x.png"⟩).1 =
      emptyDb ∧
    ∀ pt token,
      (createPoint demoHash demoTok true false emptyDb
          ⟨"n", "b@x.com", "pw", "w", "0", "0", "c", "u", "1,2", some "x.png"⟩).2 ≠
        .ok pt token :=
  C4_create_rolls_back demoHash demoTok true false emptyDb
    ⟨"n", "b@x.com", "pw", "w", "0", "0", "c", "u", "1,2", some "x.png"⟩ (Or.inr rfl)

/-- Claim C5, counterexample. The claim says a duplicate identifier in the
delimited string does not produce duplicate association rows. The code maps
one row per list element with no dedup: creating with `"1,1"` stores the
association row (1, 1) twice. -/
theorem C5_counterexample_duplicate_rows :
    parseItems "1,1" = [1, 1] ∧
      ((createPoint demoHash demoTok true true emptyDb c5req).1.point_items.count
        (PointItemRow.mk 1 1)) = 2 := by
  decide

/-- Claim C5 as amended: a successful create inserts exactly one
association row per element of the parsed item list, duplicates included
(the new rows are the parsed list mapped to rows of the new point, appended
to the store). -/
theorem C5_amended_row_per_occurrence (hash : String → String) (tok : Nat → String)
    (ok1 ok2 : Bool) (db : DB) (req : CreateRequest) (pt : CreatedPoint) (token : String)
    (hok : (createPoint hash tok ok1 ok2 db req).2 = .ok pt token) :
    (createPoint hash tok ok1 ok2 db req).1.point_items =
      db.point_items ++ (parseItems req.items).map (fun i => PointItemRow.mk pt.id i) := by
  rcases createPoint_spec hash tok ok1 ok2 db req
      (createPoint hash tok ok1 ok2 db req).1
      (createPoint hash tok ok1 ok2 db req).2 Prod.mk.eta.symm with
    ⟨_, hnotok⟩ | ⟨filename, _, _, _, hdb, hres⟩
  · exact absurd hok (hnotok pt token)
  · rw [hok] at hres
    injection hres.symm with h3 h4
    rw [hdb, ← h3]

/-- Witness for C5's amended theorem at a concrete create. -/
theorem C5_witness :
    (createPoint demoHash demoTok true true emptyDb c5req).1.point_items =
      emptyDb.point_items ++
        (parseItems c5req.items).map (fun i => PointItemRow.mk 1 i) :=
  C5_amended_row_per_occurrence demoHash demoTok true true emptyDb c5req
    ⟨1, "n", "c5@x.com", none, "w", "0", "0", "c", "u", "c5.png"⟩
    (demoTok 1) (by decide)

/-- Claim C8. The claim says a create without a stored image reference
fails with a structured MissingImageReference error. The code has no such
check: it dereferences `request.file.filename` and throws an uncaught
TypeError, an unstructured failure (though indeed no state is created,
since the open transaction is never committed). -/
theorem C8_missing_file_uncaught :
    createPoint demoHash demoTok true true emptyDb noFileReq =
      (emptyDb, .crash "TypeError: Cannot read property filename of undefined") := by
  decide

/-- Membership in the points-to-associations inner join. -/
lemma mem_joinPointItems {db : DB} {p : PointRow} {pi : PointItemRow} :
    (p, pi) ∈ joinPointItems db ↔
      p ∈ db.points ∧ pi ∈ db.point_items ∧ pi.point_id = p.id := by
  simp only [joinPointItems, List.mem_flatMap, List.mem_map, List.mem_filter,
    Prod.mk.injEq, beq_iff_eq]
  constructor
  · rintro ⟨a, ha, b, ⟨hb, hid⟩, rfl, rfl⟩
    exact ⟨ha, hb, hid⟩
  · rintro ⟨hp, hpi, hid⟩
    exact ⟨p, hp, pi, ⟨hpi, hid⟩, rfl, rfl⟩

/-- Unfolding of `List.contains` into membership. -/
lemma contains_eq_mem (l : List Int) (a : Int) (h : l.contains a = true) : a ∈ l :=
  List.elem_iff.mp h

/-- Characterization of the rows `index` returns: a point appears exactly
when it has some association row whose item passes the (possibly disabled)
item filter and its city and uf match. Note the inner join makes an
association row necessary even when `ignoreItems` disables the filter. -/
lemma indexPoints_mem_iff (db : DB) (q : IndexQuery) (p : PointRow) :
    p ∈ indexPoints db q ↔
      p ∈ db.points ∧ p.city = q.city ∧ p.uf = q.uf ∧
        ∃ pi ∈ db.point_items, pi.point_id = p.id ∧
          (q.ignoreItems = true ∨ pi.item_id ∈ parseItems q.items) := by
  unfold indexPoints
  cases hig : q.ignoreItems
  · rw [if_neg Bool.false_ne_true, List.mem_dedup]
    simp only [List.mem_map, List.mem_filter, Prod.exists, Bool.and_eq_true, beq_iff_eq]
    constructor
    · rintro ⟨a, b, ⟨⟨hj, hcont⟩, hc, hu⟩, rfl⟩
      rw [mem_joinPointItems] at hj
      exact ⟨hj.1, hc, hu, b, hj.2.1, hj.2.2, Or.inr (contains_eq_mem _ _ hcont)⟩
    · rintro ⟨hp, hc, hu, pi, hpi, hid, hitem⟩
      rcases hitem with hcontra | hitem
      · cases hcontra
      · exact ⟨p, pi, ⟨⟨mem_joinPointItems.mpr ⟨hp, hpi, hid⟩,
          List.elem_iff.mpr hitem⟩, hc, hu⟩, rfl⟩
  · rw [if_pos rfl, List.mem_dedup]
    simp only [List.mem_map, List.mem_filter, Prod.exists, Bool.and_eq_true, beq_iff_eq]
    constructor
    · rintro ⟨a, b, ⟨hj, hc, hu⟩, rfl⟩
      rw [mem_joinPointItems] at hj
      exact ⟨hj.1, hc, hu, b, hj.2.1, hj.2.2, by simp⟩
    · rintro ⟨hp, hc, hu, pi, hpi, hid, _⟩
      exact ⟨p, pi, ⟨mem_joinPointItems.mpr ⟨hp, hpi, hid⟩, hc, hu⟩, rfl⟩

/-- Claim C9, counterexample. The claim says a list call returns exactly
the points whose city and region match (intersecting the item filter only
when `includeAllItems` is false). With `ignoreItems` true and a stored
point matching the city and uf filters but owning no association row, the
claim predicts the point in the result; the inner join drops it and the
result is empty. -/
theorem C9_counterexample_itemless_point :
    itemlessRow ∈ itemlessDb.points ∧ itemlessRow.city = "Anapolis" ∧
      itemlessRow.uf = "GO" ∧
      indexPoints itemlessDb ⟨"Anapolis", "GO", "", true, false⟩ = [] := by
  decide

/-- Claim C9 as amended: the list result contains exactly the stored points
that own at least one association row passing the (possibly disabled) item
filter and whose city and region code equal the filters, each appearing at
most once (the result has no duplicates). -/
theorem C9_amended_index_membership (db : DB) (q : IndexQuery) :
    (indexPoints db q).Nodup ∧
      ∀ p : PointRow, p ∈ indexPoints db q ↔
        p ∈ db.points ∧ p.city = q.city ∧ p.uf = q.uf ∧
          ∃ pi ∈ db.point_items, pi.point_id = p.id ∧
            (q.ignoreItems = true ∨ pi.item_id ∈ parseItems q.items) :=
  ⟨List.nodup_dedup _, fun p => indexPoints_mem_iff db q p⟩

/-- Claim C10. Every point returned by a list call owns at least one
association row: the query inner-joins `points` to `point_items` before any
filtering, so an item-less point is invisible even when `ignoreItems`
disables the item filter. -/
theorem C10_index_requires_association (db : DB) (q : IndexQuery) (p : PointRow)
    (h : p ∈ indexPoints db q) :
    ∃ pi ∈ db.point_items, pi.point_id = p.id := by
  obtain ⟨-, -, -, pi, hpi, hid, -⟩ := (indexPoints_mem_iff db q p).mp h
  exact ⟨pi, hpi, hid⟩

/-- Witness for C10: a concrete list call with `ignoreItems` set, whose one
returned point indeed owns an association row. -/
theorem C10_witness :
    ∃ pi ∈ (DB.mk [itemlessRow] [⟨1, 7⟩] [] 2).point_items, pi.point_id = itemlessRow.id :=
  C10_index_requires_association (DB.mk [itemlessRow] [⟨1, 7⟩] [] 2)
    ⟨"Anapolis", "GO", "", true, false⟩ itemlessRow (by decide)

/-- The association-replacement step never touches the `points` rows. -/
lemma dbAfterItems_points (db : DB) (pid : Nat) (req : UpdateRequest) :
    (dbAfterItems db pid req).points = db.points := by
  unfold dbAfterItems
  split <;> rfl

/-- The UPDATE on `points` never touches the `point_items` rows. -/
lemma dbAfterPointUpdate_point_items (db : DB) (pid : Nat) (req : UpdateRequest)
    (ph img : Option String) :
    (dbAfterPointUpdate db pid req ph img).point_items = db.point_items := rfl

/-- Case analysis of one update call: either the committed database is
unchanged and the outcome is not the 200 (collision, not found, unlink
threw, or a statement of the transaction threw — in each case the commit is
unreachable), or the call succeeded, the looked-up row exists, and the
committed database is the staged one: the UPDATE of the row's fields
followed by the optional association replacement. -/
theorem updatePoint_spec (hash : String → String) (ok1 ok2 : Bool)
    (st : SystemState) (req : UpdateRequest) (st' : SystemState) (res : UpdateResult)
    (hpair : updatePoint hash ok1 ok2 st req = (st', res)) :
    (st'.db = st.db ∧ res.isOk = false) ∨
    (∃ rawPoint,
      st.db.points.find? (fun p => p.email == req.originalemail) = some rawPoint ∧
      st'.db = dbAfterItems
        (dbAfterPointUpdate st.db rawPoint.id req (passwordHashOf hash req) req.file)
        rawPoint.id req ∧
      res.isOk = true) := by
  unfold updatePoint updateTrx at hpair
  split at hpair
  · injection hpair with h1 h2
    exact Or.inl ⟨by rw [← h1], by rw [← h2]; rfl⟩
  · split at hpair
    · injection hpair with h1 h2
      exact Or.inl ⟨by rw [← h1], by rw [← h2]; rfl⟩
    · next rawPoint heqfind =>
      split at hpair
      · next newImage heqfile =>
        split at hpair
        · split at hpair
          · split at hpair
            · injection hpair with h1 h2
              exact Or.inl ⟨by rw [← h1], by rw [← h2]; rfl⟩
            · split at hpair
              · injection hpair with h1 h2
                exact Or.inl ⟨by rw [← h1], by rw [← h2]; rfl⟩
              · injection hpair with h1 h2
                refine Or.inr ⟨rawPoint, heqfind, ?_, by rw [← h2]; rfl⟩
                rw [← h1, heqfile]
          · injection hpair with h1 h2
            exact Or.inl ⟨by rw [← h1], by rw [← h2]; rfl⟩
        · injection hpair with h1 h2
          exact Or.inl ⟨by rw [← h1], by rw [← h2]; rfl⟩
      · next heqfile =>
        split at hpair
        · split at hpair
          · injection hpair with h1 h2
            exact Or.inl ⟨by rw [← h1], by rw [← h2]; rfl⟩
          · split at hpair
            · injection hpair with h1 h2
              exact Or.inl ⟨by rw [← h1], by rw [← h2]; rfl⟩
            · injection hpair with h1 h2
              refine Or.inr ⟨rawPoint, heqfind, ?_, by rw [← h2]; rfl⟩
              rw [← h1, heqfile]
        · injection hpair with h1 h2
          exact Or.inl ⟨by rw [← h1], by rw [← h2]; rfl⟩

/-- In a store whose point ids are free of duplicates, lookup by the id of
a stored row finds exactly that row. -/
lemma find?_id_of_nodup {l : List PointRow} {p : PointRow}
    (hnd : (l.map PointRow.id).Nodup) (hmem : p ∈ l) :
    l.find? (fun q => q.id == p.id) = some p := by
  induction l with
  | nil => cases hmem
  | cons a t ih =>
    rw [List.map_cons, List.nodup_cons] at hnd
    rcases List.mem_cons.mp hmem with rfl | hm
    · exact List.find?_cons_of_pos _ (by simp)
    · have hane : ¬((fun q => q.id == p.id) a = true) := by
        simp only [beq_iff_eq]
        intro hcontra
        exact hnd.1 (hcontra ▸ List.mem_map_of_mem PointRow.id hm)
      have hstep : (a :: t).find? (fun q => q.id == p.id) =
          t.find? (fun q => q.id == p.id) := List.find?_cons_of_neg _ hane
      rw [hstep]
      exact ih hnd.2 hm

/-- The stored hash of a stored row, read back by id. -/
lemma pointPassword_of_nodup (db : DB) (p : PointRow)
    (hnd : (db.points.map PointRow.id).Nodup) (hmem : p ∈ db.points) :
    pointPassword db p.id = some p.password := by
  unfold pointPassword
  rw [find?_id_of_nodup hnd hmem]
  rfl

/-- The stored hash of the updated row after the staged writes of update:
the hash recomputed when one was supplied, the previous one kept
otherwise. -/
lemma pointPassword_after (st : SystemState) (req : UpdateRequest)
    (ph img : Option String) (p : PointRow)
    (hnd : (st.db.points.map PointRow.id).Nodup) (hmem : p ∈ st.db.points) :
    pointPassword (dbAfterItems (dbAfterPointUpdate st.db p.id req ph img) p.id req) p.id =
      some (ph.getD p.password) := by
  unfold pointPassword
  rw [dbAfterItems_points]
  unfold dbAfterPointUpdate
  show ((st.db.points.map fun r => if r.id == p.id then patchedRow req ph img r else r).find?
      (fun q => q.id == p.id)).map PointRow.password = _
  rw [List.find?_map]
  have hpred : ((fun q => q.id == p.id) ∘
      (fun r => if r.id == p.id then patchedRow req ph img r else r)) =
      (fun q => q.id == p.id) := by
    funext r
    simp only [Function.comp]
    split <;> rfl
  rw [hpred, find?_id_of_nodup hnd hmem]
  simp [patchedRow]

/-- After the association replacement, the association set of the point is
exactly the parsed supplied list. -/
lemma assocItems_dbAfterItems (db : DB) (pid : Nat) (req : UpdateRequest)
    (h : suppliedNonEmpty req.items = true) :
    assocItems (dbAfterItems db pid req) pid = parseItems (req.items.getD "") := by
  unfold dbAfterItems assocItems
  rw [if_pos h]
  show ((db.point_items.filter (fun pi => !(pi.point_id == pid)) ++
      (parseItems (req.items.getD "")).map (fun i => PointItemRow.mk pid i)).filter
      (fun pi => pi.point_id == pid)).map PointItemRow.item_id = _
  rw [List.filter_append]
  have h1 : (db.point_items.filter (fun pi => !(pi.point_id == pid))).filter
      (fun pi => pi.point_id == pid) = [] := by
    rw [List.filter_filter]
    apply List.filter_eq_nil_iff.mpr
    intro a _
    cases ha : (a.point_id == pid) <;> simp [ha]
  have h2 : ((parseItems (req.items.getD "")).map
      (fun i => PointItemRow.mk pid i)).filter (fun pi => pi.point_id == pid) =
      (parseItems (req.items.getD "")).map (fun i => PointItemRow.mk pid i) := by
    apply List.filter_eq_self.mpr
    intro a ha
    obtain ⟨i, _, rfl⟩ := List.mem_map.mp ha
    simp
  rw [h1, h2, List.nil_append, List.map_map]
  have hcomp : (PointItemRow.item_id ∘ fun i => PointItemRow.mk pid i) = id := by
    funext i
    rfl
  rw [hcomp, List.map_id]

/-- With no item list supplied, the association replacement is skipped. -/
lemma dbAfterItems_not_supplied (db : DB) (pid : Nat) (req : UpdateRequest)
    (h : suppliedNonEmpty req.items = false) :
    dbAfterItems db pid req = db := by
  unfold dbAfterItems
  rw [if_neg]
  rw [h]
  exact Bool.false_ne_true

/-- Claim C2. For a successful update of a stored point: when `items` is
supplied and nonempty, the association set of that point afterwards is
exactly the parsed supplied set (every prior row for the point removed);
when it is absent or empty, the association set is untouched. -/
theorem C2_update_association_replacement (hash : String → String) (ok1 ok2 : Bool)
    (st : SystemState) (req : UpdateRequest) (p : PointRow)
    (hfind : st.db.points.find? (fun q => q.email == req.originalemail) = some p)
    (hok : ((updatePoint hash ok1 ok2 st req).2).isOk = true) :
    (suppliedNonEmpty req.items = true →
      ∀ i : Int, i ∈ assocItems (updatePoint hash ok1 ok2 st req).1.db p.id ↔
        i ∈ parseItems (req.items.getD "")) ∧
    (suppliedNonEmpty req.items = false →
      assocItems (updatePoint hash ok1 ok2 st req).1.db p.id = assocItems st.db p.id) := by
  rcases updatePoint_spec hash ok1 ok2 st req _ _ Prod.mk.eta.symm with
    ⟨_, hfail⟩ | ⟨raw, hfind', hdb, _⟩
  · rw [hfail] at hok
    cases hok
  · rw [hfind'] at hfind
    injection hfind with hraw
    subst hraw
    rw [hdb]
    constructor
    · intro hsup i
      rw [assocItems_dbAfterItems _ _ _ hsup]
    · intro hsup
      rw [dbAfterItems_not_supplied _ _ _ hsup]
      unfold assocItems
      rw [dbAfterPointUpdate_point_items]

/-- Witness for C2: replacing associations 1, 2, 3 by the supplied list 4
at a concrete state. -/
theorem C2_witness :
    (suppliedNonEmpty u1reqItems.items = true →
      ∀ i : Int, i ∈ assocItems (updatePoint demoHash true true u1st u1reqItems).1.db
          u1row.id ↔ i ∈ parseItems (u1reqItems.items.getD "")) ∧
    (suppliedNonEmpty u1reqItems.items = false →
      assocItems (updatePoint demoHash true true u1st u1reqItems).1.db u1row.id =
        assocItems u1st.db u1row.id) :=
  C2_update_association_replacement demoHash true true u1st u1reqItems u1row
    (by decide) (by decide)

/-- Claim C6. For an update of a stored point in a store with no duplicate
ids: when the credential is absent or empty, the stored hash of that point
is unchanged after the call, on every path (the staged UPDATE skips the
`undefined` password column, and every failure path keeps the committed
rows); when a nonempty credential is supplied and the call succeeds, the
stored hash is the hash recomputed from the new credential. -/
theorem C6_credential_frame (hash : String → String) (ok1 ok2 : Bool)
    (st : SystemState) (req : UpdateRequest) (p : PointRow)
    (hnd : (st.db.points.map PointRow.id).Nodup)
    (hfind : st.db.points.find? (fun q => q.email == req.originalemail) = some p) :
    (suppliedNonEmpty req.password = false →
      pointPassword (updatePoint hash ok1 ok2 st req).1.db p.id = some p.password) ∧
    (∀ pw, req.password = some pw → pw ≠ "" →
      ((updatePoint hash ok1 ok2 st req).2).isOk = true →
      pointPassword (updatePoint hash ok1 ok2 st req).1.db p.id = some (hash pw)) := by
  have hmem : p ∈ st.db.points := List.mem_of_find?_eq_some hfind
  rcases updatePoint_spec hash ok1 ok2 st req _ _ Prod.mk.eta.symm with
    ⟨hdb, hfail⟩ | ⟨raw, hfind', hdb, _⟩
  · constructor
    · intro _
      rw [hdb]
      exact pointPassword_of_nodup st.db p hnd hmem
    · intro pw _ _ hok
      rw [hfail] at hok
      cases hok
  · rw [hfind'] at hfind
    injection hfind with hraw
    subst hraw
    constructor
    · intro habs
      rw [hdb, pointPassword_after st req _ _ _ hnd hmem]
      unfold passwordHashOf
      rw [if_neg]
      · rfl
      · rw [habs]
        exact Bool.false_ne_true
    · intro pw hpw hne _
      have hsup : suppliedNonEmpty req.password = true := by
        unfold suppliedNonEmpty
        rw [hpw]
        exact bne_iff_ne.mpr hne
      rw [hdb, pointPassword_after st req _ _ _ hnd hmem]
      unfold passwordHashOf
      rw [if_pos hsup, hpw]
      rfl

/-- Witness for C6: a concrete update supplying a new credential, whose
stored hash afterwards is the recomputed one, and the same update with the
credential judged absent leaves the hash in place (vacuously here, since
`u1reqPassword` does supply one; the second conjunct is the live one). -/
theorem C6_witness :
    (suppliedNonEmpty u1reqPassword.password = false →
      pointPassword (updatePoint demoHash true true u1st u1reqPassword).1.db u1row.id =
        some u1row.password) ∧
    (∀ pw, u1reqPassword.password = some pw → pw ≠ "" →
      ((updatePoint demoHash true true u1st u1reqPassword).2).isOk = true →
      pointPassword (updatePoint demoHash true true u1st u1reqPassword).1.db u1row.id =
        some (demoHash pw)) :=
  C6_credential_frame demoHash true true u1st u1reqPassword u1row
    (by decide) (by decide)

/-- Claim C7. The claim says the release of the old image asset happens
inside the same atomic unit of work as the new reference, and that no
outcome leaves the stored point referencing a deleted asset. The code
refutes it: `fs.unlinkSync` runs immediately, outside the transaction, so
when a later statement of the transaction throws, the rows roll back while
the file deletion stands — at this input the stored point still references
`old.png`, which is gone from the uploads directory. -/
theorem C7_unlink_outside_transaction :
    (updatePoint demoHash false true danglingState danglingReq).2 =
      .crash "update on points threw" ∧
    (updatePoint demoHash false true danglingState danglingReq).1.db =
      danglingState.db ∧
    danglingRow ∈ (updatePoint demoHash false true danglingState danglingReq).1.db.points ∧
    danglingRow.image = "old.png" ∧
    (updatePoint demoHash false true danglingState danglingReq).1.files = ["new.png"] := by
  decide

end Ecoleta
